import Mathlib

/-!
Verification of the hallucination-detection core
(`src/detection/hallucination_detector.py`) and the evaluation-metrics
engine (`src/evaluation/metrics.py`).

Shallow embedding conventions:
* Python floats are modelled as exact rationals (`ℚ`); every arithmetic
  expression mirrors the source expression.
* Python `set` values built by `set(x.split())` are modelled as duplicate-free
  lists in order of first occurrence (`uniqFirst`), so cardinalities and
  intersections match Python set semantics.
* `collections.Counter(...).most_common(1)` is modelled by `mostCommon`,
  which returns the earliest-inserted element among those of maximal count
  (the documented stable behaviour of `most_common`).
* Regular-expression scans (`re.findall`) are modelled by fuel-indexed
  left-to-right scanners that reproduce the leftmost-match semantics of the
  concrete patterns used by the source, including `\b` word boundaries.
* The external text-generation collaborator (`self.llm.generate`), which can
  raise, is modelled as an injected `Except String String` producer; a Python
  exception is the `.error` case.
* Character classes ([A-Z], \d, \s, \w, `str.lower`, `string.punctuation`)
  are modelled over ASCII, which covers every input exercised by the claims.
-/

/-! ### Character classes and basic string helpers -/

/-- ASCII uppercase letter, the regex class [A-Z]. -/
def isUpperB (c : Char) : Bool := 65 ≤ c.toNat && c.toNat ≤ 90

/-- ASCII lowercase letter, the regex class [a-z]. -/
def isLowerB (c : Char) : Bool := 97 ≤ c.toNat && c.toNat ≤ 122

/-- ASCII digit, the regex class \d. -/
def isDigitB (c : Char) : Bool := 48 ≤ c.toNat && c.toNat ≤ 57

/-- ASCII whitespace: space, \t, \n, \r, \v, \f.  This is the ASCII part of
Python's `str.split()` / `str.strip()` whitespace and of the regex class \s. -/
def isSpaceB (c : Char) : Bool :=
  c.toNat = 32 || c.toNat = 9 || c.toNat = 10 || c.toNat = 13 ||
  c.toNat = 11 || c.toNat = 12

/-- Regex word character \w (ASCII): [A-Za-z0-9_]. -/
def isWordB (c : Char) : Bool :=
  isUpperB c || isLowerB c || isDigitB c || c.toNat = 95

/-- Membership in Python's `string.punctuation`
(ASCII codes 33-47, 58-64, 91-96, 123-126). -/
def isPunctB (c : Char) : Bool :=
  (33 ≤ c.toNat && c.toNat ≤ 47) || (58 ≤ c.toNat && c.toNat ≤ 64) ||
  (91 ≤ c.toNat && c.toNat ≤ 96) || (123 ≤ c.toNat && c.toNat ≤ 126)

/-- ASCII lowercasing of one character, as in `str.lower()`. -/
def lowerChar (c : Char) : Char :=
  if 65 ≤ c.toNat && c.toNat ≤ 90 then Char.ofNat (c.toNat + 32) else c

/-- Python `str.strip()`: drop leading and trailing whitespace. -/
def pyStrip (l : List Char) : List Char :=
  ((l.dropWhile isSpaceB).reverse.dropWhile isSpaceB).reverse

/-- `str.strip()` on a `String`. -/
def strStrip (s : String) : String := String.mk (pyStrip s.toList)

/-- `str.lower()` on a `String` (ASCII model). -/
def strLower (s : String) : String := String.mk (s.toList.map lowerChar)

/-- Fuel-indexed worker for `splitWs`. -/
def splitWsF : Nat → List Char → List String
  | 0, _ => []
  | _, [] => []
  | fuel + 1, c :: rest =>
    if isSpaceB c then splitWsF fuel rest
    else
      String.mk (c :: rest.takeWhile (fun d => !isSpaceB d)) ::
        splitWsF fuel (rest.dropWhile (fun d => !isSpaceB d))

/-- Python `str.split()` with no argument: split on whitespace runs,
discarding empty pieces. -/
def splitWs (l : List Char) : List String := splitWsF l.length l

/-- `str.split()` on a `String`. -/
def splitWsStr (s : String) : List String := splitWs s.toList

/-- Duplicate-free sublist in order of first occurrence; models both the
insertion order of `collections.Counter` keys and, where only cardinality
and membership matter, Python `set`s. -/
def uniqFirst (l : List String) : List String :=
  l.foldl (fun acc a => if a ∈ acc then acc else acc ++ [a]) []

/-- Python `in` for a substring: `sub in hay` (fuel-indexed scan). -/
def listIsSubF : Nat → List Char → List Char → Bool
  | _, [], _ => true
  | 0, _ :: _, _ => false
  | _, _ :: _, [] => false
  | fuel + 1, sub, c :: rest =>
    (sub.isPrefixOf (c :: rest)) || listIsSubF fuel sub rest

/-- `sub in hay` on strings (Python substring containment). -/
def strContains (hay sub : String) : Bool :=
  listIsSubF hay.toList.length sub.toList hay.toList

/-- All unordered pairs `(l[i], l[j])` with `i < j`, in the nested-loop order
used by `_calculate_agreement`. -/
def allPairs {α : Type} : List α → List (α × α)
  | [] => []
  | x :: xs => xs.map (fun y => (x, y)) ++ allPairs xs

/-- Earliest element of maximal `cnt` in a list (the element that
`Counter.most_common(1)` would report, given keys in first-occurrence order). -/
def bestOf (cnt : String → Nat) : List String → Option String
  | [] => none
  | a :: rest =>
    match bestOf cnt rest with
    | none => some a
    | some b => if cnt a ≥ cnt b then some a else some b

/-- `Counter(l).most_common(1)[0][0]`: the most frequent element, earliest
first occurrence breaking ties; `none` on the empty list. -/
def mostCommon (l : List String) : Option String :=
  bestOf (fun a => l.count a) (uniqFirst l)

/-- `Counter(l).most_common(1)[0][1]`: the maximal multiplicity. -/
def mostCommonCount (l : List String) : Nat :=
  match mostCommon l with
  | some t => l.count t
  | none => 0

/-- `Counter(l).most_common(1)[0]` as an optional (element, count) pair. -/
def mostCommonPair (l : List String) : Option (String × Nat) :=
  match mostCommon l with
  | some t => some (t, l.count t)
  | none => none

/-! ### Data model: detection verdicts -/

/-- The per-method `evidence` dictionary of `HallucinationResult`, one
constructor per shape the source can produce. -/
inductive Evidence where
  /-- Self-consistency evidence: agreement score, sample count, the
  normalized responses and the most common response with its count. -/
  | selfConsistency (agreement_score : ℚ) (num_samples : Nat)
      (responses : List String) (most_common : Option (String × Nat))
  /-- Evidence for the fewer-than-two-responses fail-safe. -/
  | genErrorEv (error : String)
  /-- Factual-verification evidence. -/
  | factual (claim ground_truth : String) (token_overlap : ℚ)
      (exact_match numerical_match : Bool) (claim_numbers truth_numbers : List ℚ)
  /-- Empty-ground-truth evidence flag. -/
  | emptyTruth (error : String)
  /-- Contradiction-detection evidence. -/
  | contradiction (analysis original_text : String)
  /-- Contradiction-detection collaborator-failure evidence. -/
  | contradictionError (error : String)
  /-- Entity-verification evidence (`unexpected` is already truncated to 5). -/
  | entity (found_entities missing_entities unexpected_entities : List String)
      (expected_count found_count : Nat)
  /-- Temporal-verification evidence. -/
  | temporal (years_found : List Nat) (chronologically_ordered : Bool)
      (future_years : List Nat) (context_year : Option Int)
      (context_mismatch : Bool)
  /-- No-temporal-references evidence note. -/
  | temporalNone (note : String)
deriving DecidableEq

/-- The `HallucinationResult` dataclass. -/
structure HallucinationResult where
  is_hallucination : Bool
  confidence : ℚ
  hallucination_type : Option String
  evidence : Evidence
  detection_method : String
deriving DecidableEq

/-! ### Detection methods (`HallucinationDetector`) -/

/-- Jaccard similarity contribution of one pair of token sets in
`_calculate_agreement`: `some (|A∩B| / |A∪B|)` when the union is nonempty,
`none` when it is empty (the Python loop appends nothing in that case).
`a` and `b` are duplicate-free lists standing for Python sets. -/
def jaccardOpt (a b : List String) : Option ℚ :=
  let inter := (a.filter (fun x => x ∈ b)).length
  let union := (a ++ b.filter (fun x => x ∉ a)).length
  if union > 0 then some ((inter : ℚ) / (union : ℚ)) else none

/-- `HallucinationDetector._calculate_agreement`: 50/50 blend of
exact-match agreement and mean pairwise Jaccard similarity.
(The Python method has a leading underscore in its name.) -/
def calculate_agreement (responses : List String) : ℚ :=
  if responses = [] then 0
  else
    let exact_agreement : ℚ := (mostCommonCount responses : ℚ) / (responses.length : ℚ)
    let token_sets := responses.map (fun r => uniqFirst (splitWsStr r))
    let token_agreement : ℚ :=
      if token_sets.length > 1 then
        let similarities := (allPairs token_sets).filterMap (fun p => jaccardOpt p.1 p.2)
        if similarities = [] then 0 else similarities.sum / (similarities.length : ℚ)
      else 1
    1 / 2 * exact_agreement + 1 / 2 * token_agreement

/-- Lines 79-106 of `detect_self_consistency`: the verdict computed from the
list of successfully generated (already normalized) responses. -/
def selfConsistencyVerdict (responses : List String) : HallucinationResult :=
  if responses.length < 2 then
    { is_hallucination := true
      confidence := 1
      hallucination_type := some "generation_failed"
      evidence := .genErrorEv "Could not generate responses"
      detection_method := "self_consistency" }
  else
    let agreement_score := calculate_agreement responses
    let threshold : ℚ := 6 / 10
    let is_h := decide (agreement_score < threshold)
    { is_hallucination := is_h
      confidence := |agreement_score - threshold| / threshold
      hallucination_type := if is_h then some "inconsistency" else none
      evidence := .selfConsistency agreement_score responses.length responses
        (mostCommonPair responses)
      detection_method := "self_consistency" }

/-- `detect_self_consistency`.  The external collaborator `self.llm.generate`
is injected as `gen`, mapping the sample index to either generated text or a
raised exception (`.error`); the generation loop keeps the successes,
normalized with `strip().lower()`. -/
def detect_self_consistency (gen : Nat → Except String String)
    (num_samples : Nat := 5) : HallucinationResult :=
  let responses := (List.range num_samples).filterMap (fun i =>
    match gen i with
    | .ok t => some (strLower (strStrip t))
    | .error _ => none)
  selfConsistencyVerdict responses

/-- `HallucinationDetector._extract_numbers` scanning phase: `re.findall` of
the pattern  -?\\d+\\.?\\d*  as a fuel-indexed left-to-right scan, producing
for each match its sign flag, integer digits, and fraction digits. -/
def numScanF : Nat → List Char → List (Bool × List Char × List Char)
  | 0, _ => []
  | _, [] => []
  | fuel + 1, c :: rest =>
    if isDigitB c then
      let intDigits := (c :: rest).takeWhile isDigitB
      let afterInt := (c :: rest).dropWhile isDigitB
      let fracDigits :=
        match afterInt with
        | d :: tail => if d.toNat = 46 then tail.takeWhile isDigitB else []
        | [] => []
      let afterAll :=
        match afterInt with
        | d :: tail => if d.toNat = 46 then tail.dropWhile isDigitB else afterInt
        | [] => afterInt
      (false, intDigits, fracDigits) :: numScanF fuel afterAll
    else if c.toNat = 45 then
      match rest with
      | d :: _ =>
        if isDigitB d then
          let intDigits := rest.takeWhile isDigitB
          let afterInt := rest.dropWhile isDigitB
          let fracDigits :=
            match afterInt with
            | e :: tail => if e.toNat = 46 then tail.takeWhile isDigitB else []
            | [] => []
          let afterAll :=
            match afterInt with
            | e :: tail => if e.toNat = 46 then tail.dropWhile isDigitB else afterInt
            | [] => afterInt
          (true, intDigits, fracDigits) :: numScanF fuel afterAll
        else numScanF fuel rest
      | [] => []
    else numScanF fuel rest

/-- Decimal value of a digit run. -/
def digitsToNat (l : List Char) : Nat :=
  l.foldl (fun acc d => 10 * acc + (d.toNat - 48)) 0

/-- `float(...)` conversion of one matched numeric literal (sign, integer
digits, fraction digits), as an exact rational. -/
def ratOfParts (p : Bool × List Char × List Char) : ℚ :=
  (if p.1 then -1 else 1) *
    ((digitsToNat p.2.1 : ℚ) + (digitsToNat p.2.2 : ℚ) / (10 : ℚ) ^ p.2.2.length)

/-- `_extract_numbers` on a character list: scan, then convert each match.
(The Python filter `if n and n != '.'` drops nothing, since every match of
the pattern contains at least one digit.) -/
def extract_numbers (l : List Char) : List ℚ :=
  (numScanF l.length l).map ratOfParts

/-- The normalization prefix of `detect_factual_error`:
`strip().lower().translate(remove string.punctuation)`. -/
def normalizeChars (s : String) : List Char :=
  ((pyStrip s.toList).map lowerChar).filter (fun c => !isPunctB c)

/-- Token set (duplicate-free, first-occurrence order) of the normalized
string, i.e. Python `set(norm.split())`. -/
def tokensOf (s : String) : List String := uniqFirst (splitWs (normalizeChars s))

/-- Token-overlap ratio `len(claim_tokens & truth_tokens) / len(truth_tokens)`. -/
def overlapQ (claim truth : String) : ℚ :=
  (((tokensOf truth).filter (fun x => x ∈ tokensOf claim)).length : ℚ) /
    ((tokensOf truth).length : ℚ)

/-- Exact normalized match `claim_norm == truth_norm`. -/
def exactMatchB (claim truth : String) : Bool :=
  normalizeChars claim = normalizeChars truth

/-- Numbers extracted from the normalized string
(`_extract_numbers(claim_norm)`). -/
def numsOf (s : String) : List ℚ := extract_numbers (normalizeChars s)

/-- The `numerical_match` flag: `True` unless the truth has numbers and the
two number **lists** differ (Python compares the lists with `==`). -/
def numericalMatchB (claim truth : String) : Bool :=
  numsOf truth = [] || numsOf claim = numsOf truth

/-- `HallucinationDetector.detect_factual_error`. -/
def detect_factual_error (claim ground_truth : String) : HallucinationResult :=
  if (tokensOf ground_truth).length = 0 then
    { is_hallucination := false
      confidence := 0
      hallucination_type := none
      evidence := .emptyTruth "Empty ground truth"
      detection_method := "factual_verification" }
  else
    let overlap := overlapQ claim ground_truth
    let exact_match := exactMatchB claim ground_truth
    let numerical_match := numericalMatchB claim ground_truth
    let is_h := !(exact_match || decide (overlap ≥ 1) ||
      (decide (overlap > 7 / 10) && numerical_match))
    let h_type : Option String :=
      if is_h then
        if !numerical_match then some "numerical_error"
        else if overlap < 3 / 10 then some "fabrication"
        else some "factual_error"
      else none
    { is_hallucination := is_h
      confidence := 1 - overlap
      hallucination_type := h_type
      evidence := .factual claim ground_truth overlap exact_match numerical_match
        (numsOf claim) (numsOf ground_truth)
      detection_method := "factual_verification" }

/-- `HallucinationDetector.detect_contradiction`.  The single collaborator
call is injected as its outcome `genResult`; `.error` is a raised exception,
caught by the method. -/
def detect_contradiction (text : String) (genResult : Except String String) :
    HallucinationResult :=
  match genResult with
  | .ok t =>
    let analysis := strStrip t
    let has_contradiction := !(strContains (strLower analysis) "no contradictions")
    { is_hallucination := has_contradiction
      confidence := 7 / 10
      hallucination_type := if has_contradiction then some "logical_inconsistency" else none
      evidence := .contradiction analysis text
      detection_method := "contradiction_detection" }
  | .error e =>
    { is_hallucination := false
      confidence := 0
      hallucination_type := none
      evidence := .contradictionError e
      detection_method := "contradiction_detection" }

/-- One `[A-Z][a-z]+` unit of the capitalized-span regex: an uppercase letter
followed by the (maximal) nonempty run of lowercase letters. -/
def matchCapUnit : List Char → Option (List Char × List Char)
  | [] => none
  | c :: rest =>
    if isUpperB c then
      let run := rest.takeWhile isLowerB
      if run = [] then none else some (c :: run, rest.dropWhile isLowerB)
    else none

/-- Greedy matching of the repeated group `(?:\s+[A-Z][a-z]+)*`: each element
is the text of one matched group together with the remaining input after it. -/
def capGroupsGreedy : Nat → List Char → List (List Char × List Char)
  | 0, _ => []
  | fuel + 1, l =>
    let ws := l.takeWhile isSpaceB
    if ws = [] then []
    else
      match matchCapUnit (l.dropWhile isSpaceB) with
      | none => []
      | some (u, rest2) => (ws ++ u, rest2) :: capGroupsGreedy fuel rest2

/-- Trailing word boundary \b: the next character, if any, is not a word
character. -/
def boundaryAfter : List Char → Bool
  | [] => true
  | c :: _ => !isWordB c

/-- One attempted match of  \b[A-Z][a-z]+(?:\s+[A-Z][a-z]+)*\b  at the head
of the input (the leading boundary is checked by the caller).  Mirrors the
backtracking of the Python engine: groups are taken greedily; if the trailing
boundary then fails, the last group is given back (after which the boundary
lands before the group's whitespace and always holds); with no group to give
back the whole match fails. -/
def matchCapSpan (fuel : Nat) (l : List Char) : Option (List Char × List Char) :=
  match matchCapUnit l with
  | none => none
  | some (u, rest) =>
    let gs := capGroupsGreedy fuel rest
    match gs.getLast? with
    | none => if boundaryAfter rest then some (u, rest) else none
    | some (_, restLast) =>
      if boundaryAfter restLast then
        some (u ++ (gs.map Prod.fst).flatten, restLast)
      else
        let gs2 := gs.dropLast
        let rest2 :=
          match gs2.getLast? with
          | some (_, r) => r
          | none => rest
        some (u ++ (gs2.map Prod.fst).flatten, rest2)

/-- `re.findall(r1, text)` for the capitalized-span pattern: left-to-right
scan; `prevW` records whether the previous character was a word character
(for the leading \b). -/
def scanCapSpans : Nat → Bool → List Char → List String
  | 0, _, _ => []
  | _, _, [] => []
  | fuel + 1, prevW, c :: rest =>
    if !prevW then
      match matchCapSpan fuel (c :: rest) with
      | some (span, rest2) => String.mk span :: scanCapSpans fuel true rest2
      | none => scanCapSpans fuel (isWordB c) rest
    else scanCapSpans fuel (isWordB c) rest

/-- The capitalized-span extraction
`re.findall(r'\b[A-Z][a-z]+(?:\s+[A-Z][a-z]+)*\b', text)`. -/
def extractCapSpans (text : String) : List String :=
  scanCapSpans (text.toList.length + 1) false text.toList

/-- `HallucinationDetector.detect_entity_hallucination`. -/
def detect_entity_hallucination (text : String) (expected_entities : List String) :
    HallucinationResult :=
  let text_lower := strLower text
  let found_entities := expected_entities.filter
    (fun e => strContains text_lower (strLower e))
  let missing_entities := expected_entities.filter
    (fun e => !strContains text_lower (strLower e))
  let potential_entities := extractCapSpans text
  let unexpected_entities := potential_entities.filter
    (fun e => e ∉ expected_entities)
  let has_unexpected := unexpected_entities.length > 0
  let missing_expected := missing_entities.length > 0
  let is_h := has_unexpected || (missing_expected && found_entities.length = 0)
  { is_hallucination := is_h
    confidence := if is_h then 8 / 10 else 9 / 10
    hallucination_type := if is_h then some "entity_error" else none
    evidence := .entity found_entities missing_entities
      (unexpected_entities.take 5) expected_entities.length found_entities.length
    detection_method := "entity_verification" }

/-- Numeric value of an ASCII digit character. -/
def digitVal (c : Char) : Nat := c.toNat - 48

/-- One attempted match of  \b(1[0-9]{3}|20[0-2][0-9])\b  at the head of the
input (leading boundary checked by the caller): four characters forming a
year in 1000-1999 or 2000-2029, followed by a word boundary. -/
def matchYear : List Char → Option (Nat × List Char)
  | c1 :: c2 :: c3 :: c4 :: rest =>
    if boundaryAfter rest then
      if c1.toNat = 49 && isDigitB c2 && isDigitB c3 && isDigitB c4 then
        some (1000 + 100 * digitVal c2 + 10 * digitVal c3 + digitVal c4, rest)
      else if c1.toNat = 50 && c2.toNat = 48 &&
          (48 ≤ c3.toNat && c3.toNat ≤ 50) && isDigitB c4 then
        some (2000 + 10 * digitVal c3 + digitVal c4, rest)
      else none
    else none
  | _ => none

/-- `re.findall(r'\b(1[0-9]{3}|20[0-2][0-9])\b', text)` as a left-to-right
scan. -/
def scanYears : Nat → Bool → List Char → List Nat
  | 0, _, _ => []
  | _, _, [] => []
  | fuel + 1, prevW, c :: rest =>
    if !prevW then
      match matchYear (c :: rest) with
      | some (y, rest2) => y :: scanYears fuel true rest2
      | none => scanYears fuel (isWordB c) rest
    else scanYears fuel (isWordB c) rest

/-- Year extraction of `detect_temporal_error`. -/
def extract_years (text : String) : List Nat :=
  scanYears text.toList.length false text.toList

/-- Nondecreasing check, i.e. Python `years == sorted(years)`. -/
def nondecreasing : List Nat → Bool
  | [] => true
  | [_] => true
  | a :: b :: t => a ≤ b && nondecreasing (b :: t)

/-- `HallucinationDetector.detect_temporal_error` (fixed current-year
cutoff 2025).  `context_year and years` uses Python truthiness: a `None` or
zero context year disables the context check. -/
def detect_temporal_error (text : String) (context_year : Option Int := none) :
    HallucinationResult :=
  let years := extract_years text
  if years = [] then
    { is_hallucination := false
      confidence := 0
      hallucination_type := none
      evidence := .temporalNone "No temporal references found"
      detection_method := "temporal_verification" }
  else
    let is_sorted := nondecreasing years
    let future_years := years.filter (fun y => y > 2025)
    let context_mismatch :=
      match context_year with
      | some cy => cy ≠ 0 && years.all (fun y => ((y : Int) - cy).natAbs > 10)
      | none => false
    let is_h := future_years.length > 0 || context_mismatch
    { is_hallucination := is_h
      confidence := if is_h then 9 / 10 else 7 / 10
      hallucination_type := if is_h then some "temporal_error" else none
      evidence := .temporal years is_sorted future_years context_year context_mismatch
      detection_method := "temporal_verification" }

/-- The `types` list of `aggregate_detection_results`:
`[r.hallucination_type for r in results.values() if r.hallucination_type]`.
Python truthiness keeps a type only when it is neither `None` nor the empty
string. -/
def truthyTypes (results : List HallucinationResult) : List String :=
  results.filterMap (fun r =>
    match r.hallucination_type with
    | some t => if t = "" then none else some t
    | none => none)

/-- `HallucinationDetector.aggregate_detection_results`.  The input models
`results.values()` in insertion order (the dict keys are irrelevant to the
computation). -/
def aggregate_detection_results (results : List HallucinationResult) :
    Bool × ℚ × String :=
  if results = [] then (false, 0, "unknown")
  else
    let hallucination_votes := (results.filter (fun r => r.is_hallucination)).length
    let total_methods := results.length
    let confidences := (results.filter (fun r => r.is_hallucination)).map
      (fun r => r.confidence)
    let avg_confidence : ℚ :=
      if confidences = [] then 0 else confidences.sum / (confidences.length : ℚ)
    let is_h := decide ((hallucination_votes : ℚ) > (total_methods : ℚ) / 2)
    let types := truthyTypes results
    let primary_type :=
      match mostCommon types with
      | some t => t
      | none => "unknown"
    (is_h, avg_confidence, primary_type)

/-! ### Evaluation metrics (`EvaluationMetrics`) -/

/-- Core of `EvaluationMetrics.accuracy` after the length check:
`correct / len(predictions) if predictions else 0.0`. -/
def accuracyCore (predictions ground_truth : List Bool) : ℚ :=
  if predictions = [] then 0
  else
    (((predictions.zip ground_truth).filter (fun p => p.1 = p.2)).length : ℚ) /
      (predictions.length : ℚ)

/-- `EvaluationMetrics.accuracy`; a `ValueError` is the `.error` case. -/
def accuracy (predictions ground_truth : List Bool) : Except String ℚ :=
  if predictions.length ≠ ground_truth.length then
    .error "Predictions and ground truth must have same length"
  else .ok (accuracyCore predictions ground_truth)

/-- The dictionary returned by `precision_recall_f1`. -/
structure PRF where
  precision : ℚ
  /-- The 'recall' field (renamed: `recall` is a Lean command keyword). -/
  recall_val : ℚ
  f1 : ℚ
  tp : Nat
  fp : Nat
  fn : Nat
  tn : Nat
deriving DecidableEq

/-- Core of `EvaluationMetrics.precision_recall_f1` after the length check. -/
def prfCore (predictions ground_truth : List Bool) : PRF :=
  let pairs := predictions.zip ground_truth
  let tp := (pairs.filter (fun p => p.1 && p.2)).length
  let fp := (pairs.filter (fun p => p.1 && !p.2)).length
  let fn := (pairs.filter (fun p => !p.1 && p.2)).length
  let tn := (pairs.filter (fun p => !p.1 && !p.2)).length
  let precision : ℚ := if tp + fp > 0 then (tp : ℚ) / ((tp : ℚ) + (fp : ℚ)) else 0
  let recall_val : ℚ := if tp + fn > 0 then (tp : ℚ) / ((tp : ℚ) + (fn : ℚ)) else 0
  let f1 : ℚ :=
    if precision + recall_val > 0 then
      2 * precision * recall_val / (precision + recall_val)
    else 0
  ⟨precision, recall_val, f1, tp, fp, fn, tn⟩

/-- `EvaluationMetrics.precision_recall_f1`. -/
def precision_recall_f1 (predictions ground_truth : List Bool) :
    Except String PRF :=
  if predictions.length ≠ ground_truth.length then
    .error "Predictions and ground truth must have same length"
  else .ok (prfCore predictions ground_truth)

/-- `EvaluationMetrics.hallucination_rate`. -/
def hallucination_rate (predictions : List Bool) : ℚ :=
  if predictions = [] then 0
  else ((predictions.filter id).length : ℚ) / (predictions.length : ℚ)

/-- One entry of the `bins` list returned by `confidence_calibration`. -/
structure BinData where
  bin : Nat
  lo : ℚ
  hi : ℚ
  avg_confidence : ℚ
  accuracy : ℚ
  count : Nat
  gap : ℚ
deriving DecidableEq

/-- The dictionary returned by `confidence_calibration`.  (In the non-empty
case the Python dict also echoes the `num_bins` argument back; that echo is
not modelled.) -/
structure CalibResult where
  ece : ℚ
  bins : List BinData
deriving DecidableEq

/-- Bin assignment `clip(digitize(c, bins[:-1]) - 1, 0, num_bins - 1)` with
the equal-width edges `j / num_bins`: the number of edges that are `≤ c`,
minus one, clipped into `[0, num_bins - 1]` (Nat subtraction performs the
lower clip). -/
def binIndex (num_bins : Nat) (c : ℚ) : Nat :=
  let d := ((List.range num_bins).filter (fun j => (j : ℚ) / (num_bins : ℚ) ≤ c)).length
  min (num_bins - 1) (d - 1)

/-- `EvaluationMetrics.confidence_calibration`. -/
def confidence_calibration (confidences : List ℚ) (correct : List Bool)
    (num_bins : Nat := 10) : Except String CalibResult :=
  if confidences.length ≠ correct.length then
    .error "Confidences and correct must have same length"
  else if confidences = [] then .ok ⟨0, []⟩
  else
    let total_samples := confidences.length
    let data := confidences.zip correct
    let bin_data := (List.range num_bins).filterMap (fun i =>
      let cell := data.filter (fun p => binIndex num_bins p.1 = i)
      if cell = [] then none
      else
        let count := cell.length
        let avg_confidence := (cell.map Prod.fst).sum / (count : ℚ)
        let acc := ((cell.filter (fun p => p.2)).length : ℚ) / (count : ℚ)
        some (⟨i, (i : ℚ) / (num_bins : ℚ), ((i : ℚ) + 1) / (num_bins : ℚ),
          avg_confidence, acc, count, |avg_confidence - acc|⟩ : BinData))
    let total_ece := (bin_data.map (fun b =>
      ((b.count : ℚ) / (total_samples : ℚ)) * |b.avg_confidence - b.accuracy|)).sum
    .ok ⟨total_ece, bin_data⟩

/-- The per-type dictionary of `error_analysis_by_type`. -/
structure TypeMetrics where
  prf : PRF
  accuracy : ℚ
  count : Nat
deriving DecidableEq

/-- `EvaluationMetrics.error_analysis_by_type`.  Groups appear in order of
first occurrence of the type tag (`defaultdict` insertion order). -/
def error_analysis_by_type (predictions ground_truth : List Bool)
    (hallucination_types : List String) :
    Except String (List (String × TypeMetrics)) :=
  if ¬(predictions.length = ground_truth.length ∧
      ground_truth.length = hallucination_types.length) then
    .error "All inputs must have same length"
  else
    let rows := (predictions.zip ground_truth).zip hallucination_types
    .ok ((uniqFirst hallucination_types).map (fun k =>
      let cell := rows.filter (fun r => r.2 = k)
      let preds := cell.map (fun r => r.1.1)
      let truth := cell.map (fun r => r.1.2)
      (k, ⟨prfCore preds truth, accuracyCore preds truth, preds.length⟩)))

/-- The per-method dictionary of `compare_methods`. -/
structure MethodMetrics where
  prf : PRF
  accuracy : ℚ
  hallucination_rate : ℚ
deriving DecidableEq

/-- `EvaluationMetrics.compare_methods`.  A method whose prediction list has
a different length than `ground_truth` is skipped (the source only logs a
warning), not an error. -/
def compare_methods (method_results : List (String × List Bool))
    (ground_truth : List Bool) : List (String × MethodMetrics) :=
  match method_results with
  | [] => []
  | (name, predictions) :: rest =>
    if predictions.length ≠ ground_truth.length then
      compare_methods rest ground_truth
    else
      (name, ⟨prfCore predictions ground_truth,
        accuracyCore predictions ground_truth,
        hallucination_rate predictions⟩) :: compare_methods rest ground_truth

/-- The per-model dictionary of `model_comparison`. -/
structure ModelMetrics where
  exact_match_rate : ℚ
  avg_token_overlap : ℚ
  hallucination_rate : ℚ
  num_samples : Nat
deriving DecidableEq

/-- `EvaluationMetrics.model_comparison`.  A model whose response list has a
different length than `ground_truths` is skipped (warning only), not an
error.  (With equal-length empty inputs the Python code divides by zero; the
rational model yields 0 there, a case no claim exercises.) -/
def model_comparison (model_responses : List (String × List String))
    (ground_truths : List String) : List (String × ModelMetrics) :=
  match model_responses with
  | [] => []
  | (name, responses) :: rest =>
    if responses.length ≠ ground_truths.length then
      model_comparison rest ground_truths
    else
      let pairs := responses.zip ground_truths
      let exact_matches := (pairs.filter (fun p =>
        strLower (strStrip p.1) = strLower (strStrip p.2))).length
      let overlaps := pairs.map (fun p =>
        let r_tokens := uniqFirst (splitWsStr (strLower p.1))
        let g_tokens := uniqFirst (splitWsStr (strLower p.2))
        if g_tokens = [] then (0 : ℚ)
        else ((g_tokens.filter (fun x => x ∈ r_tokens)).length : ℚ) /
          (g_tokens.length : ℚ))
      let emr : ℚ := (exact_matches : ℚ) / (responses.length : ℚ)
      (name, ⟨emr, overlaps.sum / (overlaps.length : ℚ), 1 - emr,
        responses.length⟩) :: model_comparison rest ground_truths

/-- The dictionary returned by `mitigation_effectiveness`. -/
structure MitigationResult where
  baseline_hallucination_rate : ℚ
  mitigated_hallucination_rate : ℚ
  absolute_reduction : ℚ
  relative_reduction_percent : ℚ
  improvements : Nat
  degradations : Nat
  unchanged : Nat
  net_improvement : Int
deriving DecidableEq

/-- `EvaluationMetrics.mitigation_effectiveness`.  (With equal-length empty
inputs the Python code divides by zero; the rational model yields 0 there, a
case no claim exercises.) -/
def mitigation_effectiveness (baseline mitigated : List Bool) :
    Except String MitigationResult :=
  if baseline.length ≠ mitigated.length then
    .error "Inputs must have same length"
  else
    let baseline_rate : ℚ := ((baseline.filter id).length : ℚ) / (baseline.length : ℚ)
    let mitigated_rate : ℚ := ((mitigated.filter id).length : ℚ) / (mitigated.length : ℚ)
    let absolute_reduction := baseline_rate - mitigated_rate
    let relative_reduction : ℚ :=
      if baseline_rate > 0 then absolute_reduction / baseline_rate * 100 else 0
    let pairs := baseline.zip mitigated
    let improvements := (pairs.filter (fun p => p.1 && !p.2)).length
    let degradations := (pairs.filter (fun p => !p.1 && p.2)).length
    .ok ⟨baseline_rate, mitigated_rate, absolute_reduction, relative_reduction,
      improvements, degradations, baseline.length - improvements - degradations,
      (improvements : Int) - (degradations : Int)⟩

/-! ### Helper lemmas -/

/-- Membership through the `uniqFirst` fold. -/
theorem foldl_uniq_mem (l : List String) (acc : List String) (a : String) :
    (a ∈ l.foldl (fun acc x => if x ∈ acc then acc else acc ++ [x]) acc) ↔
      a ∈ acc ∨ a ∈ l := by
  induction l generalizing acc with
  | nil => simp
  | cons x xs ih =>
    simp only [List.foldl_cons]
    by_cases hx : x ∈ acc
    · rw [if_pos hx, ih]
      constructor
      · rintro (h | h)
        · exact Or.inl h
        · exact Or.inr (List.mem_cons_of_mem x h)
      · rintro (h | h)
        · exact Or.inl h
        · rcases List.mem_cons.mp h with rfl | h2
          · exact Or.inl hx
          · exact Or.inr h2
    · rw [if_neg hx, ih]
      simp only [List.mem_append, List.mem_singleton, List.mem_cons]
      tauto

/-- `uniqFirst` preserves membership. -/
theorem mem_uniqFirst (l : List String) (a : String) :
    a ∈ uniqFirst l ↔ a ∈ l := by
  unfold uniqFirst
  rw [foldl_uniq_mem]
  simp

/-- `uniqFirst` of a nonempty list is nonempty. -/
theorem uniqFirst_ne_nil {l : List String} (h : l ≠ []) : uniqFirst l ≠ [] := by
  rcases l with _ | ⟨a, t⟩
  · exact absurd rfl h
  · intro hu
    have : a ∈ uniqFirst (a :: t) := (mem_uniqFirst _ _).mpr (List.mem_cons_self a t)
    rw [hu] at this
    exact (List.not_mem_nil a) this

/-- Folding the `uniqFirst` step over copies of an element already present
leaves the accumulator unchanged. -/
theorem foldl_uniq_replicate (k : Nat) (s : String) (acc : List String)
    (h : s ∈ acc) :
    (List.replicate k s).foldl (fun acc x => if x ∈ acc then acc else acc ++ [x]) acc
      = acc := by
  induction k with
  | zero => simp
  | succ k ih => simp [List.replicate_succ, if_pos h, ih]

/-- `uniqFirst` of a nonempty constant list is the singleton. -/
theorem uniqFirst_replicate {n : Nat} (hn : n ≠ 0) (s : String) :
    uniqFirst (List.replicate n s) = [s] := by
  rcases n with _ | k
  · exact absurd rfl hn
  · unfold uniqFirst
    rw [List.replicate_succ, List.foldl_cons]
    simp only [List.not_mem_nil, if_false, List.nil_append]
    exact foldl_uniq_replicate k s [s] (List.mem_singleton.mpr rfl)

/-- `bestOf` fails exactly on the empty list. -/
theorem bestOf_eq_none {cnt : String → Nat} :
    ∀ {l : List String}, bestOf cnt l = none ↔ l = [] := by
  intro l
  cases l with
  | nil => simp [bestOf]
  | cons a rest =>
    simp only [bestOf]
    constructor
    · intro h
      exfalso
      split at h
      · exact Option.noConfusion h
      · split_ifs at h
    · intro h
      exact absurd h (List.cons_ne_nil a rest)

/-- The element reported by `bestOf` belongs to the scanned list. -/
theorem bestOf_mem {cnt : String → Nat} :
    ∀ {l : List String} {t : String}, bestOf cnt l = some t → t ∈ l := by
  intro l
  induction l with
  | nil => intro t h; simp [bestOf] at h
  | cons a rest ih =>
    intro t h
    unfold bestOf at h
    split at h
    · injection h with h2
      exact h2 ▸ List.mem_cons_self a rest
    · rename_i b hb
      split_ifs at h
      · injection h with h2
        exact h2 ▸ List.mem_cons_self a rest
      · injection h with h2
        exact h2 ▸ List.mem_cons_of_mem a (ih hb)

/-- `bestOf` attains the maximal `cnt` over the scanned list. -/
theorem bestOf_max {cnt : String → Nat} :
    ∀ {l : List String} {t : String}, bestOf cnt l = some t →
      ∀ a ∈ l, cnt a ≤ cnt t := by
  intro l
  induction l with
  | nil => intro t h; simp [bestOf] at h
  | cons x rest ih =>
    intro t h a ha
    unfold bestOf at h
    split at h
    · rename_i hb
      have hrest : rest = [] := bestOf_eq_none.mp hb
      injection h with h2
      subst hrest
      rcases List.mem_cons.mp ha with rfl | ha2
      · exact le_of_eq (congrArg cnt h2)
      · exact absurd ha2 (List.not_mem_nil a)
    · rename_i b hb
      split_ifs at h with hc
      · injection h with h2
        rcases List.mem_cons.mp ha with rfl | ha2
        · exact le_of_eq (congrArg cnt h2)
        · exact h2 ▸ le_trans (ih hb a ha2) hc
      · injection h with h2
        rcases List.mem_cons.mp ha with rfl | ha2
        · exact h2 ▸ le_of_lt (lt_of_not_ge hc)
        · exact h2 ▸ ih hb a ha2

/-- `bestOf` succeeds on a nonempty list. -/
theorem bestOf_isSome {cnt : String → Nat} {l : List String} (h : l ≠ []) :
    ∃ t, bestOf cnt l = some t := by
  rcases hb : bestOf cnt l with _ | b
  · exact absurd (bestOf_eq_none.mp hb) h
  · exact ⟨b, rfl⟩

/-- `mostCommon` returns an element of the list. -/
theorem mostCommon_mem {l : List String} {t : String}
    (h : mostCommon l = some t) : t ∈ l :=
  (mem_uniqFirst l t).mp (bestOf_mem h)

/-- `mostCommon` returns an element of maximal multiplicity. -/
theorem mostCommon_max {l : List String} {t : String}
    (h : mostCommon l = some t) : ∀ a ∈ l, l.count a ≤ l.count t :=
  fun a ha => bestOf_max h a ((mem_uniqFirst l a).mpr ha)

/-- `mostCommon` succeeds on a nonempty list. -/
theorem mostCommon_of_ne_nil {l : List String} (h : l ≠ []) :
    ∃ t, mostCommon l = some t :=
  bestOf_isSome (uniqFirst_ne_nil h)

/-- `mostCommon` of a nonempty constant list. -/
theorem mostCommon_replicate {n : Nat} (hn : n ≠ 0) (s : String) :
    mostCommon (List.replicate n s) = some s := by
  unfold mostCommon
  rw [uniqFirst_replicate hn s]
  rfl

/-- Maximal multiplicity in a nonempty constant list. -/
theorem mostCommonCount_replicate {n : Nat} (hn : n ≠ 0) (s : String) :
    mostCommonCount (List.replicate n s) = n := by
  unfold mostCommonCount
  rw [mostCommon_replicate hn s]
  simp

/-- Every pair produced by `allPairs` on a constant list is the diagonal
pair. -/
theorem allPairs_replicate_mem {α : Type} {x : α} :
    ∀ {n : Nat} {p : α × α}, p ∈ allPairs (List.replicate n x) → p = (x, x) := by
  intro n
  induction n with
  | zero => intro p h; simp [allPairs] at h
  | succ k ih =>
    intro p h
    rw [List.replicate_succ] at h
    unfold allPairs at h
    rcases List.mem_append.mp h with h1 | h2
    · rcases List.mem_map.mp h1 with ⟨y, hy, rfl⟩
      rw [List.eq_of_mem_replicate hy]
    · exact ih h2

/-- `allPairs` on a constant list of length at least 2 is nonempty. -/
theorem allPairs_replicate_ne_nil {α : Type} {x : α} {n : Nat} (hn : 2 ≤ n) :
    allPairs (List.replicate n x) ≠ [] := by
  rcases n with _ | _ | k
  · omega
  · omega
  · rw [List.replicate_succ]
    unfold allPairs
    intro h
    rcases List.append_eq_nil.mp h with ⟨h1, _⟩
    have : List.replicate (k + 1) x ≠ [] := by simp
    exact this (List.map_eq_nil_iff.mp h1)

/-- Sum of a list whose elements are all equal to `q`. -/
theorem sum_of_all_eq {l : List ℚ} {q : ℚ} (h : ∀ x ∈ l, x = q) :
    l.sum = (l.length : ℚ) * q := by
  induction l with
  | nil => simp
  | cons a t ih =>
    have ha : a = q := h a (List.mem_cons_self a t)
    have ht : ∀ x ∈ t, x = q := fun x hx => h x (List.mem_cons_of_mem a hx)
    simp [ha, ih ht]
    ring

/-- Jaccard similarity of a nonempty set with itself is 1. -/
theorem jaccardOpt_self {T : List String} (h : T ≠ []) :
    jaccardOpt T T = some 1 := by
  unfold jaccardOpt
  have hfil : T.filter (fun x => x ∈ T) = T :=
    List.filter_eq_self.mpr (fun a ha => by simpa using ha)
  have hfil2 : T.filter (fun x => x ∉ T) = [] :=
    List.filter_eq_nil_iff.mpr (fun a ha => by simpa using ha)
  rw [hfil, hfil2, List.append_nil]
  have hlen : 0 < T.length := List.length_pos.mpr h
  rw [if_pos hlen]
  have : ((T.length : ℚ)) ≠ 0 := by
    exact_mod_cast Nat.pos_iff_ne_zero.mp hlen
  simp [div_self this]

/-- A digit character has value at most 9. -/
theorem digitVal_le {c : Char} (h : isDigitB c = true) : digitVal c ≤ 9 := by
  unfold isDigitB at h
  simp only [Bool.and_eq_true, decide_eq_true_eq] at h
  unfold digitVal
  omega

/-- Any year produced by `matchYear` lies in 1000-1999 or 2000-2029. -/
theorem matchYear_range {l : List Char} {y : Nat} {r : List Char}
    (h : matchYear l = some (y, r)) :
    (1000 ≤ y ∧ y ≤ 1999) ∨ (2000 ≤ y ∧ y ≤ 2029) := by
  unfold matchYear at h
  split at h
  · rename_i c1 c2 c3 c4 rest
    split_ifs at h with hb h1 h2
    · simp only [Option.some.injEq, Prod.mk.injEq] at h
      obtain ⟨hy, -⟩ := h
      simp only [Bool.and_eq_true, decide_eq_true_eq] at h1
      obtain ⟨⟨⟨-, e2⟩, e3⟩, e4⟩ := h1
      have b2 := digitVal_le e2
      have b3 := digitVal_le e3
      have b4 := digitVal_le e4
      omega
    · simp only [Option.some.injEq, Prod.mk.injEq] at h
      obtain ⟨hy, -⟩ := h
      simp only [Bool.and_eq_true, decide_eq_true_eq] at h2
      obtain ⟨⟨-, ⟨e3a, e3b⟩⟩, e4⟩ := h2
      have b4 := digitVal_le e4
      have b3 : digitVal c3 ≤ 2 := by
        unfold digitVal
        omega
      omega
  · exact Option.noConfusion h

/-- Every year reported by the scanner is in the heuristic window. -/
theorem scanYears_range :
    ∀ (fuel : Nat) (prevW : Bool) (l : List Char) (y : Nat),
      y ∈ scanYears fuel prevW l →
      (1000 ≤ y ∧ y ≤ 1999) ∨ (2000 ≤ y ∧ y ≤ 2029) := by
  intro fuel
  induction fuel with
  | zero => intro _ _ y h; simp [scanYears] at h
  | succ f ih =>
    intro prevW l y h
    rcases l with _ | ⟨c, rest⟩
    · simp [scanYears] at h
    · simp only [scanYears] at h
      split_ifs at h with hw
      · split at h
        · rename_i y2 rest2 hm
          rcases List.mem_cons.mp h with rfl | h2
          · exact matchYear_range hm
          · exact ih true rest2 y h2
        · exact ih (isWordB c) rest y h
      · exact ih (isWordB c) rest y h

/-- Claim C2 (amended): the regex window 1000-1999 / 2000-2029 does not
cover 2099, so `detect_temporal_error("It happened in 2099")` finds no years
and returns a non-hallucination verdict with confidence 0; any text with no
extractable year yields the same defined verdict; and every extracted year
lies in 1000-1999 or 2000-2029. -/
theorem claim_C2 :
    detect_temporal_error "It happened in 2099" none =
      { is_hallucination := false, confidence := 0, hallucination_type := none,
        evidence := .temporalNone "No temporal references found",
        detection_method := "temporal_verification" } ∧
    (∀ (text : String) (cy : Option Int), extract_years text = [] →
      detect_temporal_error text cy =
        { is_hallucination := false, confidence := 0, hallucination_type := none,
          evidence := .temporalNone "No temporal references found",
          detection_method := "temporal_verification" }) ∧
    (∀ (text : String) (y : Nat), y ∈ extract_years text →
      (1000 ≤ y ∧ y ≤ 1999) ∨ (2000 ≤ y ∧ y ≤ 2029)) := by
  refine ⟨?_, ?_, ?_⟩
  · decide
  · intro text cy h
    unfold detect_temporal_error
    rw [h]
    rfl
  · intro text y h
    exact scanYears_range _ _ _ y h

/-- Claim C2, counterexample to the claim as stated: on
"It happened in 2099" the detector reports NO hallucination (2099 is outside
the extraction window), not a temporal error with years_found=[2099]. -/
theorem claim_C2_counterexample :
    (detect_temporal_error "It happened in 2099" none).is_hallucination = false ∧
    extract_years "It happened in 2099" = [] := by
  decide

/-- Claim C2 witness: the no-year branch at a concrete text, and the window
bound at a concrete extracted year. -/
theorem claim_C2_witness :
    detect_temporal_error "Plain text, no dates" none =
      { is_hallucination := false, confidence := 0, hallucination_type := none,
        evidence := .temporalNone "No temporal references found",
        detection_method := "temporal_verification" } ∧
    ((1000 ≤ 2024 ∧ 2024 ≤ 1999) ∨ (2000 ≤ 2024 ∧ 2024 ≤ 2029)) :=
  ⟨claim_C2.2.1 "Plain text, no dates" none (by decide),
   claim_C2.2.2 "in 2024" 2024 (by decide)⟩

/-- Claim C9: an all-punctuation/empty ground truth normalizes to zero
tokens, and `detect_factual_error` then returns the defined degenerate
verdict (no hallucination, confidence 0, no type, empty-ground-truth
evidence flag) instead of raising. -/
theorem claim_C9 (claim ground_truth : String)
    (h : tokensOf ground_truth = []) :
    detect_factual_error claim ground_truth =
      { is_hallucination := false, confidence := 0, hallucination_type := none,
        evidence := .emptyTruth "Empty ground truth",
        detection_method := "factual_verification" } := by
  unfold detect_factual_error
  rw [if_pos (by rw [h]; rfl)]

/-- Claim C9 witness at a concrete all-punctuation ground truth. -/
theorem claim_C9_witness :
    tokensOf "!!!" = [] ∧
    detect_factual_error "x" "!!!" =
      { is_hallucination := false, confidence := 0, hallucination_type := none,
        evidence := .emptyTruth "Empty ground truth",
        detection_method := "factual_verification" } :=
  ⟨by decide, claim_C9 "x" "!!!" (by decide)⟩

/-- Claim C10: any capitalized span not literally (case-sensitively) listed
among the expected entities forces a hallucination verdict with confidence
0.8 and type "entity_error". -/
theorem claim_C10 (text : String) (expected_entities : List String)
    (h : ∃ e ∈ extractCapSpans text, e ∉ expected_entities) :
    (detect_entity_hallucination text expected_entities).is_hallucination = true ∧
    (detect_entity_hallucination text expected_entities).confidence = 8 / 10 ∧
    (detect_entity_hallucination text expected_entities).hallucination_type =
      some "entity_error" := by
  obtain ⟨e, he, hne⟩ := h
  have hmem : e ∈ (extractCapSpans text).filter
      (fun x => x ∉ expected_entities) :=
    List.mem_filter.mpr ⟨he, by simpa using hne⟩
  have hlen : 0 < ((extractCapSpans text).filter
      (fun x => x ∉ expected_entities)).length :=
    List.length_pos.mpr (fun hnil => by
      rw [hnil] at hmem
      exact (List.not_mem_nil e) hmem)
  have hlen2 : 0 < ((extractCapSpans text).filter
      (fun x => !decide (x ∈ expected_entities))).length := by
    simpa using hlen
  refine ⟨?_, ?_, ?_⟩ <;> simp [detect_entity_hallucination, hlen2]

/-- Claim C10 witness: "The" is extracted from "The cat sat" and is not in
the expected list ["cat"], so the verdict is a confidence-0.8 entity error. -/
theorem claim_C10_witness :
    (detect_entity_hallucination "The cat sat" ["cat"]).is_hallucination = true ∧
    (detect_entity_hallucination "The cat sat" ["cat"]).confidence = 8 / 10 ∧
    (detect_entity_hallucination "The cat sat" ["cat"]).hallucination_type =
      some "entity_error" :=
  claim_C10 "The cat sat" ["cat"] ⟨"The", by decide, by decide⟩

/-- Claim C8: when the text-generation collaborator fails on every call,
self-consistency returns the fail-safe hallucination verdict (confidence 1,
type "generation_failed") and contradiction detection returns the
conservative non-hallucination verdict (confidence 0) with the error in its
evidence; both methods are total, so no provider exception escapes them. -/
theorem claim_C8 :
    (∀ (gen : Nat → Except String String) (num_samples : Nat),
      (∀ i, ∃ e, gen i = .error e) →
      detect_self_consistency gen num_samples =
        { is_hallucination := true, confidence := 1,
          hallucination_type := some "generation_failed",
          evidence := .genErrorEv "Could not generate responses",
          detection_method := "self_consistency" }) ∧
    (∀ (text e : String),
      detect_contradiction text (.error e) =
        { is_hallucination := false, confidence := 0, hallucination_type := none,
          evidence := .contradictionError e,
          detection_method := "contradiction_detection" }) := by
  constructor
  · intro gen num_samples hfail
    unfold detect_self_consistency
    have hresp : (List.range num_samples).filterMap (fun i =>
        match gen i with
        | .ok t => some (strLower (strStrip t))
        | .error _ => none) = [] := by
      refine List.filterMap_eq_nil_iff.mpr (fun i _ => ?_)
      obtain ⟨e, he⟩ := hfail i
      rw [he]
    rw [hresp]
    rfl
  · intro text e
    rfl

/-- Claim C8 witness: a collaborator that always raises, at concrete inputs. -/
theorem claim_C8_witness :
    detect_self_consistency (fun _ => .error "boom") 5 =
      { is_hallucination := true, confidence := 1,
        hallucination_type := some "generation_failed",
        evidence := .genErrorEv "Could not generate responses",
        detection_method := "self_consistency" } ∧
    detect_contradiction "some text" (.error "boom") =
      { is_hallucination := false, confidence := 0, hallucination_type := none,
        evidence := .contradictionError "boom",
        detection_method := "contradiction_detection" } :=
  ⟨claim_C8.1 (fun _ => .error "boom") 5 (fun _ => ⟨"boom", rfl⟩),
   claim_C8.2 "some text" "boom"⟩

/-- The `numerical_match` field of factual-verification evidence. -/
def Evidence.numericalMatchOf : Evidence → Option Bool
  | .factual _ _ _ _ nm _ _ => some nm
  | _ => none

/-- Claim C5 (amended): `numerical_match` is true iff the ground truth has
no numeric literals or the two extracted number **sequences** are equal as
lists — order of appearance and multiplicity DO matter (Python compares the
`findall` result lists with `==`). -/
theorem claim_C5 (claim truth : String) (h : tokensOf truth ≠ []) :
    Evidence.numericalMatchOf (detect_factual_error claim truth).evidence
      = some true ↔
    (numsOf truth = [] ∨ numsOf claim = numsOf truth) := by
  have hlen : ¬((tokensOf truth).length = 0) := by
    simpa [List.length_eq_zero] using h
  unfold detect_factual_error
  rw [if_neg hlen]
  simp [Evidence.numericalMatchOf, numericalMatchB]

/-- Claim C5, counterexample to the claim as stated: claim "1 2" and ground
truth "2 1" have equal number **sets** {1,2}, yet `numerical_match` is
false, because the code compares the ordered lists [1,2] and [2,1]. -/
theorem claim_C5_counterexample :
    numsOf "1 2" = [1, 2] ∧ numsOf "2 1" = [2, 1] ∧
    Evidence.numericalMatchOf (detect_factual_error "1 2" "2 1").evidence
      = some false := by
  have p1 : numScanF (normalizeChars "1 2").length (normalizeChars "1 2") =
      [(false, ['1'], []), (false, ['2'], [])] := by decide
  have p2 : numScanF (normalizeChars "2 1").length (normalizeChars "2 1") =
      [(false, ['2'], []), (false, ['1'], [])] := by decide
  have c1 : Char.toNat '1' = 49 := by decide
  have c2 : Char.toNat '2' = 50 := by decide
  have h1 : numsOf "1 2" = [1, 2] := by
    unfold numsOf extract_numbers
    rw [p1]
    norm_num [ratOfParts, digitsToNat, c1, c2]
  have h2 : numsOf "2 1" = [2, 1] := by
    unfold numsOf extract_numbers
    rw [p2]
    norm_num [ratOfParts, digitsToNat, c1, c2]
  have hne : ¬((tokensOf "2 1").length = 0) := by decide
  refine ⟨h1, h2, ?_⟩
  unfold detect_factual_error
  rw [if_neg hne]
  simp only [Evidence.numericalMatchOf, numericalMatchB, h1, h2,
    Option.some.injEq]
  norm_num
  simp

/-- Claim C5 witness: equal number lists at a concrete input. -/
theorem claim_C5_witness :
    Evidence.numericalMatchOf (detect_factual_error "42" "42").evidence
      = some true :=
  (claim_C5 "42" "42" (by decide)).mpr (Or.inr rfl)

/-- Claim C4: for nonempty normalized ground truth, the factual verdict is
"not hallucination" iff exact normalized match, or full token overlap, or
overlap above 0.7 with matching numbers; hallucination types follow the
numbers-mismatch / overlap-below-0.3 / otherwise cascade; and confidence is
always `1 - overlap`. -/
theorem claim_C4 (claim truth : String) (h : tokensOf truth ≠ []) :
    ((detect_factual_error claim truth).is_hallucination = false ↔
      (exactMatchB claim truth = true ∨ overlapQ claim truth ≥ 1 ∨
        (overlapQ claim truth > 7 / 10 ∧ numericalMatchB claim truth = true))) ∧
    ((detect_factual_error claim truth).is_hallucination = true →
      (numericalMatchB claim truth = false →
        (detect_factual_error claim truth).hallucination_type =
          some "numerical_error") ∧
      (numericalMatchB claim truth = true → overlapQ claim truth < 3 / 10 →
        (detect_factual_error claim truth).hallucination_type =
          some "fabrication") ∧
      (numericalMatchB claim truth = true → ¬(overlapQ claim truth < 3 / 10) →
        (detect_factual_error claim truth).hallucination_type =
          some "factual_error")) ∧
    (detect_factual_error claim truth).confidence = 1 - overlapQ claim truth := by
  have hlen : ¬((tokensOf truth).length = 0) := by
    simpa [List.length_eq_zero] using h
  unfold detect_factual_error
  rw [if_neg hlen]
  refine ⟨?_, ?_, rfl⟩
  · simp only [Bool.not_eq_false', Bool.or_eq_true, Bool.and_eq_true,
      decide_eq_true_eq]
    tauto
  · intro hH
    simp only at hH ⊢
    refine ⟨?_, ?_, ?_⟩
    · intro hnm
      rw [if_pos hH, hnm]
      simp
    · intro hnm hov
      rw [if_pos hH, hnm]
      simp [hov]
    · intro hnm hov
      rw [if_pos hH, hnm]
      simp [hov]

/-- Claim C4 witness: an exactly matching concrete pair. -/
theorem claim_C4_witness :
    (detect_factual_error "paris" "paris").confidence =
      1 - overlapQ "paris" "paris" :=
  (claim_C4 "paris" "paris" (by decide)).2.2

/-- Claim C6 (amended): the aggregate verdict is a strict-majority vote; its
confidence averages the confidences of the hallucination-voting verdicts
only (0 when none); its primary type is the most frequent truthy type —
neither null nor the empty string — over ALL verdicts, not only the
hallucination-voting ones, and "unknown" only when no verdict carries a
truthy type. -/
theorem claim_C6 (results : List HallucinationResult) (h : results ≠ []) :
    ((aggregate_detection_results results).1 = true ↔
      results.length < 2 * (results.filter (fun r => r.is_hallucination)).length) ∧
    (results.filter (fun r => r.is_hallucination) = [] →
      (aggregate_detection_results results).2.1 = 0) ∧
    (results.filter (fun r => r.is_hallucination) ≠ [] →
      (aggregate_detection_results results).2.1 =
        ((results.filter (fun r => r.is_hallucination)).map
            (fun r => r.confidence)).sum /
          (((results.filter (fun r => r.is_hallucination)).length : ℚ))) ∧
    (truthyTypes results = [] →
      (aggregate_detection_results results).2.2 = "unknown") ∧
    (truthyTypes results ≠ [] →
      (aggregate_detection_results results).2.2 ∈ truthyTypes results ∧
      ∀ t ∈ truthyTypes results,
        (truthyTypes results).count t ≤
          (truthyTypes results).count
            (aggregate_detection_results results).2.2) := by
  unfold aggregate_detection_results
  rw [if_neg h]
  refine ⟨?_, ?_, ?_, ?_, ?_⟩
  · simp only [decide_eq_true_eq, gt_iff_lt,
      div_lt_iff₀ (show (0 : ℚ) < 2 by norm_num)]
    rw [mul_comm]
    exact_mod_cast Iff.rfl
  · intro h2
    simp [h2]
  · intro h3
    have hm : (results.filter (fun r => r.is_hallucination)).map
        (fun r => r.confidence) ≠ [] := by
      simpa using h3
    simp [hm]
  · intro h4
    simp only [h4]
    rfl
  · intro h5
    obtain ⟨t, ht⟩ := mostCommon_of_ne_nil h5
    simp only [ht]
    exact ⟨mostCommon_mem ht, mostCommon_max ht⟩

/-- Claim C6, counterexample to the claim as stated: a single verdict that
does NOT vote hallucination but carries the type "weird" makes the
aggregate's primary type "weird", whereas the claim (types drawn from
hallucination-voting verdicts only) demands "unknown". -/
theorem claim_C6_counterexample :
    aggregate_detection_results
      [{ is_hallucination := false, confidence := 1 / 2,
         hallucination_type := some "weird",
         evidence := .temporalNone "n", detection_method := "m" }] =
      (false, 0, "weird") := by
  unfold aggregate_detection_results
  rw [if_neg (by simp)]
  norm_num [truthyTypes, mostCommon, uniqFirst, bestOf]

/-- Claim C6 witness: the spec's three-verdict example with votes
[true, true, false]; the majority says hallucination. -/
theorem claim_C6_witness :
    (aggregate_detection_results
      [{ is_hallucination := true, confidence := 9 / 10,
         hallucination_type := some "temporal_error",
         evidence := .temporalNone "a", detection_method := "m1" },
       { is_hallucination := true, confidence := 8 / 10,
         hallucination_type := some "temporal_error",
         evidence := .temporalNone "b", detection_method := "m2" },
       { is_hallucination := false, confidence := 1 / 10,
         hallucination_type := none,
         evidence := .temporalNone "c", detection_method := "m3" }]).1 = true :=
  (claim_C6 _ (by simp)).1.mpr (by norm_num)

/-- Mean of a nonempty list whose elements all equal `q` is `q`. -/
theorem mean_of_all_eq {l : List ℚ} {q : ℚ} (hne : l ≠ [])
    (h : ∀ x ∈ l, x = q) : l.sum / (l.length : ℚ) = q := by
  rw [sum_of_all_eq h]
  have hq : (l.length : ℚ) ≠ 0 := by
    exact_mod_cast Nat.pos_iff_ne_zero.mp (List.length_pos.mpr hne)
  field_simp

/-- Claim C7 (amended): for a response list of length at least 2 whose
elements are all one identical string that contains at least one
(non-whitespace) token, the agreement score is exactly 1 and the
self-consistency verdict at threshold 0.6 is "not hallucination".  (The
token condition is necessary: see the counterexample with empty strings.) -/
theorem claim_C7 (s : String) (n : Nat) (hn : 2 ≤ n)
    (hs : splitWsStr s ≠ []) :
    calculate_agreement (List.replicate n s) = 1 ∧
    (selfConsistencyVerdict (List.replicate n s)).is_hallucination = false := by
  have hn0 : n ≠ 0 := by omega
  have hrep_ne : List.replicate n s ≠ [] := by
    intro hnil
    have := congrArg List.length hnil
    rw [List.length_replicate] at this
    simp at this
    omega
  have hT : uniqFirst (splitWsStr s) ≠ [] := uniqFirst_ne_nil hs
  have hlen : (List.replicate n s).length = n := List.length_replicate n s
  have hag : calculate_agreement (List.replicate n s) = 1 := by
    unfold calculate_agreement
    rw [if_neg hrep_ne]
    simp only [mostCommonCount_replicate hn0 s, hlen, List.map_replicate]
    have hpairs_mem : ∀ p ∈ allPairs (List.replicate n (uniqFirst (splitWsStr s))),
        p = (uniqFirst (splitWsStr s), uniqFirst (splitWsStr s)) :=
      fun p hp => allPairs_replicate_mem hp
    have hsim_mem : ∀ x ∈ (allPairs (List.replicate n (uniqFirst (splitWsStr s)))).filterMap
        (fun p => jaccardOpt p.1 p.2), x = 1 := by
      intro x hx
      obtain ⟨p, hp, hfx⟩ := List.mem_filterMap.mp hx
      rw [hpairs_mem p hp] at hfx
      rw [jaccardOpt_self hT] at hfx
      exact (Option.some_inj.mp hfx).symm
    have hsim_ne : (allPairs (List.replicate n (uniqFirst (splitWsStr s)))).filterMap
        (fun p => jaccardOpt p.1 p.2) ≠ [] := by
      obtain ⟨p, hp⟩ := List.exists_mem_of_ne_nil _ (allPairs_replicate_ne_nil hn)
      intro hnil
      have h1 : (1 : ℚ) ∈ (allPairs (List.replicate n (uniqFirst (splitWsStr s)))).filterMap
          (fun p => jaccardOpt p.1 p.2) := by
        refine List.mem_filterMap.mpr ⟨p, hp, ?_⟩
        rw [hpairs_mem p hp]
        exact jaccardOpt_self hT
      rw [hnil] at h1
      exact (List.not_mem_nil _) h1
    rw [if_pos (by rw [List.length_replicate]; omega), if_neg hsim_ne,
      mean_of_all_eq hsim_ne hsim_mem]
    have hnq : (n : ℚ) ≠ 0 := by exact_mod_cast hn0
    rw [div_self hnq]
    norm_num
  refine ⟨hag, ?_⟩
  unfold selfConsistencyVerdict
  rw [if_neg (by rw [hlen]; omega)]
  simp only [hag]
  norm_num

/-- Claim C7, counterexample to the claim as stated: two identical EMPTY
responses have empty token sets, the only token-set pair is skipped (empty
union), so the agreement is 0.5 — not 1.0 — and 0.5 < 0.6 makes the
self-consistency verdict a hallucination. -/
theorem claim_C7_counterexample :
    calculate_agreement ["", ""] = 1 / 2 ∧
    (selfConsistencyVerdict ["", ""]).is_hallucination = true := by
  have hmcc : mostCommonCount ["", ""] = 2 := by decide
  have hts : ["", ""].map (fun r => uniqFirst (splitWsStr r)) = [[], []] := by
    decide
  have hsim : (allPairs ([[], []] : List (List String))).filterMap
      (fun p => jaccardOpt p.1 p.2) = [] := by decide
  have hag : calculate_agreement ["", ""] = 1 / 2 := by
    unfold calculate_agreement
    rw [if_neg (by decide)]
    simp only [hmcc, hts, hsim]
    norm_num
  refine ⟨hag, ?_⟩
  unfold selfConsistencyVerdict
  rw [if_neg (by decide)]
  simp only [hag]
  norm_num

/-- Claim C7 witness: two identical one-token responses. -/
theorem claim_C7_witness :
    calculate_agreement (List.replicate 2 "paris") = 1 ∧
    (selfConsistencyVerdict (List.replicate 2 "paris")).is_hallucination =
      false :=
  claim_C7 "paris" 2 (by norm_num) (by decide)

/-- Full evaluation of `confidence_calibration` on the spec's calibration
example: both samples land in bin 9 with mean confidence 9/10 but accuracy
1, so the ECE is 1/10. -/
theorem calibration_example_eval :
    confidence_calibration [9 / 10, 9 / 10] [true, true] 10 =
      .ok ⟨1 / 10, [⟨9, 9 / 10, 1, 9 / 10, 1, 2, 1 / 10⟩]⟩ := by
  have hbi : binIndex 10 ((9 : ℚ) / 10) = 9 := by
    norm_num [binIndex, List.range_succ]
  unfold confidence_calibration
  rw [if_neg (by norm_num), if_neg (by simp)]
  norm_num [List.range_succ, hbi]
  norm_num [List.filterMap_cons, hbi, abs_of_nonpos (show (9:ℚ)/10 + (9/10 + 0) - ((1:ℚ) + (1 + 0)) ≤ 0 by norm_num)]

/-- Claim C1 (amended): for confidences [0.9, 0.9] and correctness
[True, True] with 10 bins, the single occupied bin has average confidence
0.9 and empirical accuracy 1.0, so the count-weighted Expected Calibration
Error is 0.1 — not 0.0. -/
theorem claim_C1 :
    confidence_calibration [9 / 10, 9 / 10] [true, true] 10 =
      .ok ⟨1 / 10, [⟨9, 9 / 10, 1, 9 / 10, 1, 2, 1 / 10⟩]⟩ :=
  calibration_example_eval

/-- Claim C1, counterexample to the claim as stated: the 'ece' field on this
input is not 0. -/
theorem claim_C1_counterexample :
    (confidence_calibration [9 / 10, 9 / 10] [true, true] 10).map
      CalibResult.ece ≠ Except.ok 0 := by
  rw [calibration_example_eval]
  simp only [Except.map]
  intro h
  injection h with h2
  norm_num at h2

/-- Claim C3 (amended): `accuracy`, `precision_recall_f1`,
`confidence_calibration`, `error_analysis_by_type` and
`mitigation_effectiveness` raise a length-mismatch `ValueError` to the
caller, but `compare_methods` and `model_comparison` do NOT: they silently
skip (log-and-continue) every entry whose parallel sequence has a different
length than the ground truth, returning results only for the matching
entries. -/
theorem claim_C3 :
    (∀ (p g : List Bool), p.length ≠ g.length →
      accuracy p g = .error "Predictions and ground truth must have same length") ∧
    (∀ (p g : List Bool), p.length ≠ g.length →
      precision_recall_f1 p g =
        .error "Predictions and ground truth must have same length") ∧
    (∀ (c : List ℚ) (k : List Bool) (nb : Nat), c.length ≠ k.length →
      confidence_calibration c k nb =
        .error "Confidences and correct must have same length") ∧
    (∀ (p g : List Bool) (t : List String),
      ¬(p.length = g.length ∧ g.length = t.length) →
      error_analysis_by_type p g t = .error "All inputs must have same length") ∧
    (∀ (b m : List Bool), b.length ≠ m.length →
      mitigation_effectiveness b m = .error "Inputs must have same length") ∧
    (∀ (mr : List (String × List Bool)) (g : List Bool),
      compare_methods mr g =
        compare_methods (mr.filter (fun p => p.2.length = g.length)) g) ∧
    (∀ (ms : List (String × List String)) (gts : List String),
      model_comparison ms gts =
        model_comparison (ms.filter (fun p => p.2.length = gts.length)) gts) := by
  refine ⟨?_, ?_, ?_, ?_, ?_, ?_, ?_⟩
  · intro p g h
    unfold accuracy
    rw [if_pos h]
  · intro p g h
    unfold precision_recall_f1
    rw [if_pos h]
  · intro c k nb h
    unfold confidence_calibration
    rw [if_pos h]
  · intro p g t h
    unfold error_analysis_by_type
    rw [if_pos h]
  · intro b m h
    unfold mitigation_effectiveness
    rw [if_pos h]
  · intro mr g
    induction mr with
    | nil => rfl
    | cons p rest ih =>
      rcases p with ⟨name, preds⟩
      by_cases hl : preds.length = g.length
      · simp [compare_methods, List.filter_cons, hl, ih]
      · simp [compare_methods, List.filter_cons, hl, ih]
  · intro ms gts
    induction ms with
    | nil => rfl
    | cons p rest ih =>
      rcases p with ⟨name, responses⟩
      by_cases hl : responses.length = gts.length
      · simp [model_comparison, List.filter_cons, hl, ih]
      · simp [model_comparison, List.filter_cons, hl, ih]

/-- Claim C3, counterexample to the claim as stated: `compare_methods` and
`model_comparison` return normally on mismatched lengths — the mismatched
entry is silently dropped instead of an error being raised. -/
theorem claim_C3_counterexample :
    compare_methods [("method_a", [true])] [true, false] = [] ∧
    model_comparison [("model_a", ["x"])] ["x", "y"] = [] := by
  constructor
  · unfold compare_methods
    rw [if_pos (by norm_num)]
    rfl
  · unfold model_comparison
    rw [if_pos (by norm_num)]
    rfl

/-- Claim C3 witness: the five raising metrics at concrete mismatched
inputs. -/
theorem claim_C3_witness :
    accuracy [true] [] = .error "Predictions and ground truth must have same length" ∧
    precision_recall_f1 [true] [] =
      .error "Predictions and ground truth must have same length" ∧
    confidence_calibration [1 / 2] [] 10 =
      .error "Confidences and correct must have same length" ∧
    error_analysis_by_type [true] [true] [] =
      .error "All inputs must have same length" ∧
    mitigation_effectiveness [true] [] = .error "Inputs must have same length" :=
  ⟨claim_C3.1 [true] [] (by norm_num),
   claim_C3.2.1 [true] [] (by norm_num),
   claim_C3.2.2.1 [1 / 2] [] 10 (by norm_num),
   claim_C3.2.2.2.1 [true] [true] [] (by norm_num),
   claim_C3.2.2.2.2.1 [true] [] (by norm_num)⟩
